import Mathlib

/-!
Verification of the supervised research-agent orchestrator (pocketflow).

Shallow embedding of `src/nodes.py`, `src/flow.py`, `src/main.py` and
`src/utils/code_executor.py`.  Python dictionaries produced by
`yaml.safe_load` are embedded as the inductive `Yaml`; the shared store is
the record `RunState`; LLM calls and other external collaborators are
passed in as explicit arguments (oracles), so every node function is a
pure Lean function of its inputs.
-/

namespace Pocketflow

/-- YAML values as returned by Python `yaml.safe_load`. -/
inductive Yaml where
  | null : Yaml
  | bool : Bool → Yaml
  | num : Int → Yaml
  | str : String → Yaml
  | list : List Yaml → Yaml
  | dict : List (String × Yaml) → Yaml

/-- Python truthiness (`if value:`) of a YAML value: `None`, `False`, `0`,
`""`, `[]` and `{}` are falsy, everything else is truthy. -/
def Yaml.truthy : Yaml → Bool
  | .null => false
  | .bool b => b
  | .num n => n != 0
  | .str s => !s.isEmpty
  | .list xs => !xs.isEmpty
  | .dict kvs => !kvs.isEmpty

/-- Dictionary lookup: `d[k]` when `k in d`, `none` otherwise (also `none`
on non-dict values, where Python membership tests are not applicable). -/
def Yaml.get : Yaml → String → Option Yaml
  | .dict kvs, k => kvs.lookup k
  | _, _ => none

/-- `isinstance(v, dict)`. -/
def Yaml.isDict : Yaml → Bool
  | .dict _ => true
  | _ => false

/-- Python `"k" in d and d["k"]`: the key is present and its value truthy. -/
def Yaml.keyTruthy (a : Yaml) (k : String) : Bool :=
  match a.get k with
  | some v => v.truthy
  | none => false

/-- Python truthiness of `shared.get(key)`: a missing key behaves as `None`. -/
def optTruthy : Option Yaml → Bool
  | none => false
  | some y => y.truthy

/-- Python `str.split(sep)` on character lists, for a non-empty separator:
scan left to right, cutting at each non-overlapping occurrence of `sep`.
`fuel` bounds the scan (any value above the input length is exact) so the
function is structurally recursive and evaluates by reduction. -/
def pySplitAux (sep : List Char) : Nat → List Char → List Char → List (List Char)
  | _, acc, [] => [acc.reverse]
  | 0, acc, l => [acc.reverse ++ l]
  | fuel + 1, acc, c :: rest =>
    if sep.isPrefixOf (c :: rest) then
      acc.reverse :: pySplitAux sep fuel [] (List.drop sep.length (c :: rest))
    else
      pySplitAux sep fuel (c :: acc) rest

/-- Python `s.split(sep)` for the non-empty separators used in this code. -/
def pySplit (s sep : String) : List String :=
  (pySplitAux sep.toList (s.toList.length + 1) [] s.toList).map fun cs => ⟨cs⟩

/-- Python `s.strip()`: drop leading and trailing whitespace. -/
def pyStrip (s : String) : String :=
  ⟨((s.toList.dropWhile Char.isWhitespace).reverse.dropWhile Char.isWhitespace).reverse⟩

/-- The fenced-YAML extraction used by every node
(`response.split("```yaml")[1].split("```")[0].strip()`): `none` models the
`IndexError` Python raises when the response has no ` ```yaml ` fence. -/
def extractFencedYaml (response : String) : Option String :=
  match pySplit response "```yaml" with
  | _ :: part1 :: _ => some (pyStrip ((pySplit part1 "```").headD part1))
  | _ => none

/-- A task as tracked in the shared store once planning has structured it
(`type`, `description`, `parameters`); `parameters` keeps the raw YAML
mapping. -/
structure Task where
  type : String
  description : String
  parameters : Yaml

/-- Result of one search term inside `WebResearchNode.exec`. -/
structure TermResult where
  term : Yaml
  findings : List String
  sources : List String
  status : String

/-- Result of `WebResearchNode.exec`: either the skip dict
`{"status": "skipped", "reason": ...}` or `{"status": "success", "results": ...}`. -/
inductive ResearchResult where
  | skipped : String → ResearchResult
  | success : List TermResult → ResearchResult

/-- One entry of `shared["web_research_results"]`
(`{"task": shared["current_task"], "result": exec_res}`). -/
structure ResearchEntry where
  task : Option Task
  result : ResearchResult

/-- Result of `CodeExecutorNode.exec` (skip dict, success dict, or the
error dict built in its `except` clause). -/
inductive CodeExecResult where
  | skipped : String → CodeExecResult
  | success : String → List String → String → CodeExecResult
  | error : String → CodeExecResult

/-- One entry of `shared["code_execution_results"]`. -/
structure CodeEntry where
  task : Option Task
  result : CodeExecResult

/-- The shared store (RunState).  `main.py` creates it as a dict; the keys
the orchestration reads and writes are modelled as fields, each defaulting
to the value `shared.get(key, default)` yields when the key is absent.
`validation_results` is initialised by `main.py` and never written by any
node. -/
structure RunState where
  query : String
  tasks : List Task := []
  current_task : Option Task := none
  remaining_tasks : List Task := []
  final_report : Option Yaml := none
  analysis_results : Option Yaml := none
  web_research_results : List ResearchEntry := []
  code_execution_results : List CodeEntry := []
  validation_results : Option Yaml := none

/-- The shared store as initialised in `main.py` (the keys not listed here,
such as `research_results`, are never read by any node; `analysis_results`
starts as the empty list `[]`). -/
def initialState (q : String) : RunState :=
  { query := q, analysis_results := some (Yaml.list []) }

/-! ## PlannerNode (src/nodes.py:9-87) -/

/-- The three task types accepted by the planner validation. -/
def validTaskTypes : List String := ["web_research", "data_analysis", "code_execution"]

/-- The per-task checks of `PlannerNode.exec` (src/nodes.py:65-71): the task
must be a dict, carry `type`, `description` and `parameters`, and its `type`
must be one of the three valid values.  Returns the `ValueError` message
raised, or `none` when the task passes. -/
def checkTask (task : Yaml) : Option String :=
  match task with
  | .dict kvs =>
    if (kvs.lookup "type").isNone || (kvs.lookup "description").isNone
        || (kvs.lookup "parameters").isNone then
      some "Each task must have type, description, and parameters"
    else
      match kvs.lookup "type" with
      | some (.str ty) =>
        if validTaskTypes.contains ty then none
        else some ("Invalid task type: " ++ ty)
      | _ => some "Invalid task type: non-string value"
  | _ => some "Each task must be a dictionary"

/-- The `for task in tasks["tasks"]` loop of `PlannerNode.exec`: the first
failing check aborts with its error. -/
def findTaskError : List Yaml → Option String
  | [] => none
  | t :: rest =>
    match checkTask t with
    | some e => some e
    | none => findTaskError rest

/-- The validation block of `PlannerNode.exec` (src/nodes.py:59-74): requires
a dict with a `tasks` key holding a list whose members all pass `checkTask`,
and returns the whole parsed value on success. -/
def plannerValidate (tasks : Yaml) : Except String Yaml :=
  match tasks with
  | .dict kvs =>
    match kvs.lookup "tasks" with
    | none => .error "Invalid YAML structure: missing tasks key"
    | some (.list l) =>
      match findTaskError l with
      | some e => .error e
      | none => .ok (.dict kvs)
    | some _ => .error "Invalid YAML structure: tasks must be a list"
  | _ => .error "Invalid YAML structure: missing tasks key"

/-- `PlannerNode.exec` after the LLM call (src/nodes.py:53-81): extract the
fenced YAML block from the model response (`IndexError` when absent), parse
it (`parse` is the `yaml.safe_load` collaborator, `none` modelling a parser
exception), validate.  Any error re-raises out of `exec`. -/
def plannerExec (parse : String → Option Yaml) (response : String) : Except String Yaml :=
  match extractFencedYaml response with
  | none => .error "IndexError: list index out of range"
  | some ys =>
    match parse ys with
    | none => .error "yaml.YAMLError"
    | some y => plannerValidate y

/-- `PlannerNode.post` (src/nodes.py:83-87), over structured tasks: stores the
task list and splits it into head (`current_task`) and tail
(`remaining_tasks`).  On an empty list Python raises `IndexError` at
`exec_res["tasks"][0]`, aborting the run: modelled as `none` (no successor
state). -/
def plannerPost (shared : RunState) (ts : List Task) : Option (RunState × String) :=
  match ts with
  | [] => none
  | t :: rest =>
    some ({ shared with tasks := ts, current_task := some t, remaining_tasks := rest },
      "default")

/-! ## WebResearchNode (src/nodes.py:89-142) -/

/-- The search-term sequence `WebResearchNode.exec` iterates
(src/nodes.py:105-110).  `task["parameters"].get("search_terms", [])` raises
`AttributeError` when `parameters` is not a dict — uncaught, since the
planner validation only checks that the `parameters` key exists.  A falsy
retrieved value (absent key, empty list or string, `None`, `False`, `0`)
falls back to `[task["description"]]`.  The loop then slices
`search_terms[:1]`: a (truthy) list yields its first element, a non-empty
string its first character, and any other truthy value (number, `True`,
dict) raises `TypeError` — also uncaught. -/
def webResearchTerms (task : Task) : Except String (List Yaml) :=
  match task.parameters with
  | .dict kvs =>
    match kvs.lookup "search_terms" with
    | none => .ok [.str task.description]
    | some w =>
      if w.truthy then
        match w with
        | .list xs => .ok (xs.take 1)
        | .str s => .ok [.str ⟨s.toList.take 1⟩]
        | _ => .error "TypeError: value does not support slicing"
      else .ok [.str task.description]
  | _ => .error "AttributeError: parameters object has no attribute get"

/-- `WebResearchNode.exec` (src/nodes.py:95-133).  `search` is the
`search_web_firecrawl` collaborator returning the `data` fields of its hits;
its `Except.error` models the Python exception caught by the per-term
`try`/`except` inside the loop.  The skip branch for a non-`web_research`
task returns before `parameters` is ever touched and is infallible; on a
`web_research` task the term extraction itself can raise (see
`webResearchTerms`), and that exception propagates out of `exec` uncaught,
modelled as the outer `Except.error`. -/
def webResearchExec (search : Yaml → Except String (List String)) (task : Task) :
    Except String ResearchResult :=
  if task.type != "web_research" then
    .ok (.skipped ("Task type " ++ task.type ++ " is not a web research task"))
  else
    match webResearchTerms task with
    | .error e => .error e
    | .ok search_terms =>
      .ok (.success (search_terms.map fun term =>
        match search term with
        | .ok (r0 :: _) =>
          { term := term, findings := [r0], sources := ["Firecrawl Search"],
            status := "success" }
        | .ok [] =>
          { term := term, findings := ["Error during search: list index out of range"],
            sources := ["Error"], status := "error" }
        | .error e =>
          { term := term, findings := ["Error during search: " ++ e],
            sources := ["Error"], status := "error" }))

/-- `WebResearchNode.post` (src/nodes.py:135-142): appends
`{"task": shared["current_task"], "result": exec_res}` to the research log and
touches nothing else. -/
def webResearchPost (shared : RunState) (exec_res : ResearchResult) : RunState × String :=
  ({ shared with
      web_research_results :=
        shared.web_research_results ++ [⟨shared.current_task, exec_res⟩] },
    "default")

/-- One full visit of the web-research worker: `prep` reads
`shared["current_task"]` (a `KeyError`/`TypeError` aborts the run when it is
absent, modelled as `none`), then `exec` — whose uncaught exception also
aborts the run before `post`, so nothing is appended — and `post`. -/
def webResearchStep (search : Yaml → Except String (List String)) (shared : RunState) :
    Option (RunState × String) :=
  match shared.current_task with
  | none => none
  | some t =>
    match webResearchExec search t with
    | .error _ => none
    | .ok r => some (webResearchPost shared r)

/-! ## DataAnalysisNode (src/nodes.py:144-247) -/

/-- `DataAnalysisNode.post` (src/nodes.py:245-247): overwrites the single
analysis slot with the value `exec` extracted from the model output. -/
def dataAnalysisPost (shared : RunState) (analysis : Yaml) : RunState × String :=
  ({ shared with analysis_results := some analysis }, "default")

/-! ## Code execution utility (src/utils/code_executor.py) -/

/-- The artifact extensions collected from the scratch directory
(src/utils/code_executor.py:59). -/
def artifactExts : List String := [".png", ".jpg", ".jpeg", ".svg", ".pdf"]

/-- `file.endswith((".png", ".jpg", ".jpeg", ".svg", ".pdf"))`
(`List.isSuffixOf` rather than `String.endsWith`, so it evaluates by
reduction). -/
def isArtifactFile (name : String) : Bool :=
  artifactExts.any (fun ext => ext.toList.isSuffixOf name.toList)

/-- Observable behaviour of `exec(code, namespace)` on the sandboxed code:
either it raises (`raises = some msg`) or it terminates leaving `files` in
the scratch directory. -/
structure CodeBehavior where
  raises : Option String
  files : List String

/-- The dict returned by `execute_visualization_code`
(src/utils/code_executor.py:21-87).  `d` is the identifier of the temp
directory `tempfile.mkdtemp()` creates before the code runs.  When the code
raises, the `except` clause returns `temp_dir: None` — the directory that was
already created is not reported back. -/
structure VizExecResult where
  success : Bool
  output : String
  file_paths : List String
  error : Option String
  temp_dir : Option Nat

/-- `execute_visualization_code` (src/utils/code_executor.py:21-87). -/
def execute_visualization_code (behavior : CodeBehavior) (d : Nat) : VizExecResult :=
  match behavior.raises with
  | some e =>
    { success := false, output := "Failed to execute visualization code",
      file_paths := [], error := some e, temp_dir := none }
  | none =>
    let generated := behavior.files.filter isArtifactFile
    if generated.isEmpty then
      { success := false, output := "No visualization files were generated",
        file_paths := [],
        error := some "No visualization files were generated", temp_dir := some d }
    else
      { success := true,
        output := "Successfully generated visualizations",
        file_paths := generated, error := none, temp_dir := some d }

/-- The dict returned by `execute_and_upload`; the failure dicts carry no
`urls` key, which callers read back as `[]` via `.get("urls", [])`. -/
structure UploadOutcome where
  success : Bool
  urls : List String
  error : Option String
  output : Option String

/-- `execute_and_upload` (src/utils/code_executor.py:142-188).  `upload` is
the `upload_to_supabase` collaborator (`some url` on success, `none` on a
failed upload, which the loop merely prints and skips).  `testingEnv` is
`os.getenv("TESTING") == "true"`.  The second component records whether the
`finally` clause removed the temp directory `d`: it runs `shutil.rmtree` only
when the `temp_dir` reported by `execute_visualization_code` is truthy and
the testing flag is unset. -/
def execute_and_upload (behavior : CodeBehavior) (upload : String → Option String)
    (testingEnv : Bool) (d : Nat) : UploadOutcome × Bool :=
  let result := execute_visualization_code behavior d
  let cleaned := result.temp_dir.isSome && !testingEnv
  if !result.success then
    ({ success := false, urls := [], error := result.error, output := some result.output },
      cleaned)
  else
    let urls := result.file_paths.filterMap upload
    if urls.isEmpty then
      ({ success := false, urls := [],
         error := some "No files were successfully uploaded",
         output := some result.output }, cleaned)
    else
      ({ success := true, urls := urls, error := none, output := some result.output },
        cleaned)

/-! ## CodeExecutorNode (src/nodes.py:249-369) -/

/-- The tail of `CodeExecutorNode.exec` (src/nodes.py:328-360): given the
generated `code` and the dict from `execute_and_upload`, a non-success
result raises `Exception(f"Code execution failed: ...")`, caught by the
enclosing `except` which returns the error dict; a success result returns
the success dict with the uploaded urls. -/
def codeExecutorHandle (code : String) (execution_result : UploadOutcome) :
    CodeExecResult :=
  if execution_result.success then
    .success code execution_result.urls
      (execution_result.output.getD "Visualization generated and uploaded successfully")
  else
    .error ("Code execution failed: " ++ execution_result.error.getD "Unknown error")

/-- `CodeExecutorNode.post` (src/nodes.py:362-369): appends
`{"task": shared["current_task"], "result": exec_res}` to the execution log. -/
def codeExecutorPost (shared : RunState) (exec_res : CodeExecResult) : RunState × String :=
  ({ shared with
      code_execution_results :=
        shared.code_execution_results ++ [⟨shared.current_task, exec_res⟩] },
    "default")

/-! ## ReporterNode (src/nodes.py:371-438) -/

/-- The response handling of `ReporterNode.exec` (src/nodes.py:429-434):
extract the fenced YAML block (an absent fence raises `IndexError`), then
`yaml.safe_load` it (`parse`, with `none` modelling a parser exception).
There is no `try`/`except` around either step, so both errors propagate out
of the node. -/
def reporterExec (parse : String → Option Yaml) (response : String) : Except String Yaml :=
  match extractFencedYaml response with
  | none => .error "IndexError: list index out of range"
  | some ys =>
    match parse ys with
    | none => .error "yaml.YAMLError"
    | some report => .ok report

/-- `ReporterNode.post` (src/nodes.py:436-438): overwrites the single final
report slot. -/
def reporterPost (shared : RunState) (report : Yaml) : RunState × String :=
  ({ shared with final_report := some report }, "default")

/-! ## SupervisorNode (src/nodes.py:440-602) -/

/-- The routing actions returned by `SupervisorNode.exec`. -/
inductive Action where
  | complete
  | needs_revision
  | execute_code
  | report
  | analyze
  | research
deriving DecidableEq

/-- The dict returned by `SupervisorNode.exec`: always an `action`,
optionally a `feedback` value (rejection branch) and a synthesized `task`
(`execute_code` branches). -/
structure Decision where
  action : Action
  feedback : Option Yaml := none
  task : Option Task := none

/-- The parsed report-validation judgment
`decision["decision"]` (src/nodes.py:470-476); `approved` is the Python
truthiness of its `approved` entry.  The spec assumes well-formed judge
output, and a malformed one raises out of `exec`, producing no decision. -/
structure ValidationDecision where
  approved : Bool
  feedback : Yaml

/-- The parsed secondary "needs code?" judgment
`decision["decision"]` (src/nodes.py:537-541). -/
structure CodeNeedDecision where
  needs_code : Bool
  reason : String

/-- The two LLM judgments `SupervisorNode.exec` may request, supplied as
oracles: each is only consulted in its branch. -/
structure SupervisorOracles where
  validation : ValidationDecision
  codeNeed : CodeNeedDecision

/-- `not data["current_task"] or data["current_task"]["type"] != "code_execution"`
(src/nodes.py:506 and 544).  A task dict coming from this code always has
its three keys, hence is truthy. -/
def needsSynthesizedTask : Option Task → Bool
  | none => true
  | some t => t.type != "code_execution"

/-- The synthesized visualization task (src/nodes.py:507-518). -/
def vizCodeTask : Task :=
  { type := "code_execution",
    description := "Generate visualizations based on analysis results",
    parameters := .dict [("code_requirements", .list
      [ .str "Create visualizations for the analyzed data",
        .str "Use appropriate chart types based on data characteristics",
        .str "Include proper labels and titles",
        .str "Ensure visualizations are clear and informative" ])] }

/-- The synthesized generic processing task (src/nodes.py:545-556), whose
description is the judge's reason. -/
def genericCodeTask (reason : String) : Task :=
  { type := "code_execution",
    description := reason,
    parameters := .dict [("code_requirements", .list
      [ .str "Process and analyze the data as needed",
        .str "Implement the required functionality",
        .str "Ensure proper error handling",
        .str "Include appropriate documentation" ])] }

/-- The visualization-need check (src/nodes.py:488-501): the analysis is a
dict and one of the four sections is present and truthy. -/
def needsVisualization (analysis : Yaml) : Bool :=
  analysis.isDict &&
    (analysis.keyTruthy "visualizations" || analysis.keyTruthy "metrics"
      || analysis.keyTruthy "categories" || analysis.keyTruthy "time_series")

/-- `SupervisorNode.exec` (src/nodes.py:453-587).  `SupervisorNode.prep`
passes exactly the six state fields read here, with the defaults already
built into `RunState`, so `exec` is taken directly over the state. -/
def supervisorExec (o : SupervisorOracles) (data : RunState) : Decision :=
  if optTruthy data.final_report then
    if o.validation.approved then
      { action := .complete }
    else
      { action := .needs_revision, feedback := some o.validation.feedback }
  else if optTruthy data.analysis_results then
    let analysis := data.analysis_results.getD .null
    if !data.code_execution_results.isEmpty then
      { action := .report }
    else if needsVisualization analysis then
      if needsSynthesizedTask data.current_task then
        { action := .execute_code, task := some vizCodeTask }
      else
        { action := .execute_code }
    else if o.codeNeed.needs_code then
      if needsSynthesizedTask data.current_task then
        { action := .execute_code, task := some (genericCodeTask o.codeNeed.reason) }
      else
        { action := .execute_code }
    else
      { action := .report }
  else if !data.web_research_results.isEmpty then
    { action := .analyze }
  else
    match data.current_task with
    | some t =>
      if t.type == "web_research" then
        { action := .research }
      else if t.type == "code_execution" then
        { action := .execute_code }
      else if !data.remaining_tasks.isEmpty then
        { action := .needs_revision }
      else
        { action := .report }
    | none =>
      if !data.remaining_tasks.isEmpty then
        { action := .needs_revision }
      else
        { action := .report }

/-- `SupervisorNode.post` (src/nodes.py:589-602): on `execute_code` with a
synthesized task, install it as `current_task`; on `needs_revision` with a
non-empty queue, pop its head into `current_task`; otherwise leave the state
untouched.  No branch writes the decision feedback anywhere. -/
def supervisorPost (shared : RunState) (exec_res : Decision) : RunState × Action :=
  if exec_res.action = Action.execute_code ∧ exec_res.task.isSome = true then
    ({ shared with current_task := exec_res.task }, exec_res.action)
  else if exec_res.action = Action.needs_revision then
    match shared.remaining_tasks with
    | t :: rest =>
      ({ shared with current_task := some t, remaining_tasks := rest }, exec_res.action)
    | [] => (shared, exec_res.action)
  else (shared, exec_res.action)

/-! ## The orchestration loop (src/flow.py, src/main.py) -/

/-- One observable transition of the shared store: some node runs its
`prep`/`exec`/`post` cycle and commits its `post` mutation.  Each
constructor quantifies over the external collaborators (LLM outputs, search
backend, sandbox), so the relation contains every run of
`create_research_flow` from `flow.py`; a node whose `exec` raises aborts the
run and contributes no transition. -/
inductive Step : RunState → RunState → Prop where
  | planner (ts : List Task) (s s' : RunState) (out : String)
      (h : plannerPost s ts = some (s', out)) : Step s s'
  | webResearch (search : Yaml → Except String (List String)) (s s' : RunState)
      (out : String) (h : webResearchStep search s = some (s', out)) : Step s s'
  | dataAnalysis (a : Yaml) (s : RunState) : Step s (dataAnalysisPost s a).1
  | codeExecutor (r : CodeExecResult) (s : RunState) : Step s (codeExecutorPost s r).1
  | reporter (r : Yaml) (s : RunState) : Step s (reporterPost s r).1
  | supervisor (o : SupervisorOracles) (s : RunState) :
      Step s (supervisorPost s (supervisorExec o s)).1

/-- States reachable by the orchestration loop from the initial shared store
of `main.py`. -/
inductive Reachable : RunState → Prop where
  | init (q : String) : Reachable (initialState q)
  | step {s s' : RunState} : Reachable s → Step s s' → Reachable s'

/-! ## Concrete sample values used by witnesses and counterexamples -/

/-- A planner-produced task of type `data_analysis`. -/
def dataTask : Task :=
  { type := "data_analysis", description := "x", parameters := .dict [] }

/-- Oracles whose validation judge approves and whose code judge declines. -/
def approveOracles : SupervisorOracles :=
  { validation := { approved := true, feedback := .null }
    codeNeed := { needs_code := false, reason := "" } }

/-- Oracles whose validation judge rejects with feedback and whose code judge
asks for code. -/
def rejectOracles : SupervisorOracles :=
  { validation := { approved := false, feedback := .str "bad" }
    codeNeed := { needs_code := true, reason := "r" } }

/-- A state holding a final report together with arbitrary other content. -/
def reportState : RunState :=
  { query := "q"
    current_task := some dataTask
    remaining_tasks := [dataTask]
    final_report := some (.dict [("report", .str "x")])
    analysis_results := some (.dict [("metrics", .list [.str "m"])])
    web_research_results := [⟨some dataTask, .skipped "r"⟩]
    code_execution_results := [] }

/-- A state with an analysis carrying a non-empty `metrics` section, no
report, no code-execution results and an empty queue. -/
def vizState : RunState :=
  { query := "q"
    current_task := some dataTask
    remaining_tasks := []
    final_report := none
    analysis_results := some (.dict [("metrics", .list [.str "m"])])
    web_research_results := [⟨some dataTask, .skipped "r"⟩]
    code_execution_results := [] }

/-- A fresh state whose current task is the `data_analysis` task. -/
def noAnalysisState : RunState := { query := "q", current_task := some dataTask }

/-- A search backend returning no hits (its value is irrelevant to the
skip-path claims). -/
def searchNone : Yaml → Except String (List String) := fun _ => .ok []

/-- A `web_research` task whose `parameters` is not a dict: it passes the
planner validation (the key exists) but `parameters.get(...)` raises
`AttributeError` in the research worker. -/
def badParamsTask : Task :=
  { type := "web_research", description := "d", parameters := .str "oops" }

/-- A state about to run the research worker on `badParamsTask`. -/
def badParamsState : RunState := { query := "q", current_task := some badParamsTask }

/-- A behaviour whose sandboxed code terminates leaving two artifact files. -/
def twoFilesBehavior : CodeBehavior := { raises := none, files := ["a.png", "b.png"] }

/-- A behaviour whose sandboxed code raises. -/
def raisingBehavior : CodeBehavior := { raises := some "boom", files := [] }

/-- An upload backend for which exactly the first artifact upload succeeds. -/
def partialUpload : String → Option String :=
  fun f => if f = "a.png" then some "urlA" else none

/-- A `yaml.safe_load` collaborator that fails on every input. -/
def failParse : String → Option Yaml := fun _ => none

/-- Parsed planner output whose `tasks` sequence is empty. -/
def emptyTasksYaml : Yaml := .dict [("tasks", .list [])]

/-- Parsed planner output with one `web_research` task whose `parameters`
lacks the type-specific `search_terms` list. -/
def noParamListYaml : Yaml :=
  .dict [("tasks", .list [.dict
    [("type", .str "web_research"), ("description", .str "d"),
     ("parameters", .dict [])]])]

/-! ## Helper lemmas -/

/-- A YAML value with a present-and-truthy key is a non-empty dict, hence
itself truthy. -/
theorem sections_truthy {a : Yaml}
    (h : (a.keyTruthy "visualizations" || a.keyTruthy "metrics"
      || a.keyTruthy "categories" || a.keyTruthy "time_series") = true) :
    a.isDict = true ∧ a.truthy = true := by
  cases a with
  | dict kvs =>
    cases kvs with
    | nil => simp [Yaml.keyTruthy, Yaml.get] at h
    | cons p ps => exact ⟨rfl, rfl⟩
  | null => simp [Yaml.keyTruthy, Yaml.get] at h
  | bool b => simp [Yaml.keyTruthy, Yaml.get] at h
  | num n => simp [Yaml.keyTruthy, Yaml.get] at h
  | str s => simp [Yaml.keyTruthy, Yaml.get] at h
  | list xs => simp [Yaml.keyTruthy, Yaml.get] at h

/-! ## C1 -/

/-- C1: in every state whose final report is present (truthy, the node's own
`if data["final_report"]:` notion of presence), the supervisor's decision is
validation-related — `complete` when the validator approves, `needs_revision`
when it rejects — regardless of every other state field. -/
theorem report_check_dominates (o : SupervisorOracles) (data : RunState)
    (h : optTruthy data.final_report = true) :
    (supervisorExec o data).action =
      (if o.validation.approved then Action.complete else Action.needs_revision) := by
  by_cases ha : o.validation.approved <;> simp [supervisorExec, h, ha]

/-- C1 witness: on a concrete state holding a report plus arbitrary other
content, the approving oracle yields `complete`. -/
theorem report_check_dominates_witness :
    optTruthy reportState.final_report = true ∧
      (supervisorExec approveOracles reportState).action = Action.complete := by
  refine ⟨rfl, ?_⟩
  have h := report_check_dominates approveOracles reportState rfl
  simpa using h

/-! ## C6 -/

/-- C6: running the web-research worker on a non-`web_research` task never
raises — the skip branch returns before `parameters` is touched, so `exec`
yields `ok` of the `skipped` outcome — and its `post` leaves `current_task`
and `remaining_tasks` untouched. -/
theorem web_research_skip_frame (search : Yaml → Except String (List String))
    (s : RunState) (t : Task) (hcur : s.current_task = some t)
    (h : t.type ≠ "web_research") :
    webResearchExec search t =
        .ok (.skipped ("Task type " ++ t.type ++ " is not a web research task")) ∧
      webResearchStep search s =
        some (webResearchPost s
          (.skipped ("Task type " ++ t.type ++ " is not a web research task"))) ∧
      (webResearchPost s
          (.skipped ("Task type " ++ t.type ++ " is not a web research task"))).1.current_task =
        s.current_task ∧
      (webResearchPost s
          (.skipped ("Task type " ++ t.type ++ " is not a web research task"))).1.remaining_tasks =
        s.remaining_tasks := by
  have hex : webResearchExec search t =
      .ok (.skipped ("Task type " ++ t.type ++ " is not a web research task")) := by
    simp [webResearchExec, h]
  refine ⟨hex, ?_, rfl, rfl⟩
  simp [webResearchStep, hcur, hex]

/-- C6 witness: the `data_analysis` task is skipped without an exception and
the queue fields are unchanged. -/
theorem web_research_skip_frame_witness :
    webResearchExec searchNone dataTask =
        .ok (.skipped "Task type data_analysis is not a web research task") ∧
      (webResearchPost noAnalysisState
          (.skipped "Task type data_analysis is not a web research task")).1.remaining_tasks =
        noAnalysisState.remaining_tasks := by
  have h := web_research_skip_frame searchNone noAnalysisState dataTask rfl (by decide)
  exact ⟨h.1, h.2.2.2⟩

/-! ## C7 -/

/-- C7: with no (truthy) final report, no code-execution results, and an
analysis carrying a non-empty `visualizations`/`metrics`/`categories`/
`time_series` section, the supervisor routes `execute_code`; when the current
task is absent or not of type `code_execution` the decision carries the fixed
synthesized visualization task, which `post` installs as `current_task`; and
`remaining_tasks` is never consumed or modified, also when it is empty. -/
theorem viz_need_routes_execute_code (o : SupervisorOracles) (s : RunState) (a : Yaml)
    (hrep : optTruthy s.final_report = false)
    (hcode : s.code_execution_results = [])
    (hana : s.analysis_results = some a)
    (hsec : (a.keyTruthy "visualizations" || a.keyTruthy "metrics"
      || a.keyTruthy "categories" || a.keyTruthy "time_series") = true) :
    (supervisorExec o s).action = Action.execute_code ∧
      (needsSynthesizedTask s.current_task = true →
        (supervisorExec o s).task = some vizCodeTask ∧
        (supervisorPost s (supervisorExec o s)).1.current_task = some vizCodeTask) ∧
      (supervisorPost s (supervisorExec o s)).1.remaining_tasks = s.remaining_tasks := by
  obtain ⟨hd, htr⟩ := sections_truthy hsec
  have hopt : optTruthy (some a) = true := by
    simpa [optTruthy] using htr
  have hdec : supervisorExec o s =
      (if needsSynthesizedTask s.current_task then
        { action := .execute_code, task := some vizCodeTask }
      else { action := .execute_code }) := by
    simp [supervisorExec, hrep, hana, hcode, hopt, needsVisualization, hd, hsec]
  by_cases hsyn : needsSynthesizedTask s.current_task = true
  · rw [hdec]
    simp [hsyn, supervisorPost]
  · rw [hdec]
    simp [hsyn, supervisorPost]

/-- C7 witness: on a concrete state with non-empty `metrics`, an empty queue
and a non-`code_execution` current task, the decision is `execute_code` with
the synthesized task installed, and `remaining_tasks` stays empty. -/
theorem viz_need_routes_execute_code_witness :
    (supervisorExec approveOracles vizState).action = Action.execute_code ∧
      (supervisorPost vizState (supervisorExec approveOracles vizState)).1.current_task =
        some vizCodeTask ∧
      (supervisorPost vizState (supervisorExec approveOracles vizState)).1.remaining_tasks =
        vizState.remaining_tasks := by
  have h := viz_need_routes_execute_code approveOracles vizState
    (.dict [("metrics", .list [.str "m"])]) rfl rfl rfl (by rfl)
  exact ⟨h.1, (h.2.1 (by rfl)).2, h.2.2⟩

/-! ## C10 -/

/-- C10 counterexample: a `web_research` task whose `parameters` is not a
dict passes the planner validation but makes the worker raise
(`AttributeError` at `task["parameters"].get(...)`): the visit aborts with
nothing appended, so after invoking the worker on this task the research log
is still empty and no `analyze` decision follows — refuting "after invoking
that worker on any task (of any type) the research-result log is
non-empty". -/
theorem web_research_crash_cex :
    checkTask (Yaml.dict [("type", .str "web_research"), ("description", .str "d"),
        ("parameters", .str "oops")]) = none ∧
      webResearchExec searchNone badParamsTask =
        .error "AttributeError: parameters object has no attribute get" ∧
      webResearchStep searchNone badParamsState = none ∧
      badParamsState.web_research_results = [] :=
  ⟨rfl, rfl, rfl, rfl⟩

/-- C10 amended: on every visit of the web-research worker whose `exec`
completes — which covers every task of non-`web_research` type, where the
infallible skip branch yields `skipped` — the result is appended to the
research log exactly like a success, the log is non-empty afterwards, and,
absent a truthy report or analysis, the supervisor's next decision is
`analyze`; but a `web_research` task with a non-dict `parameters` (or a
truthy non-sliceable `search_terms`) makes `exec` raise, aborting the run
with nothing appended. -/
theorem skipped_research_drives_analyze (search : Yaml → Except String (List String))
    (o : SupervisorOracles) (s : RunState) (t : Task) (r : ResearchResult)
    (hcur : s.current_task = some t)
    (hex : webResearchExec search t = .ok r)
    (hrep : optTruthy s.final_report = false)
    (hana : optTruthy s.analysis_results = false) :
    webResearchStep search s = some (webResearchPost s r) ∧
      (webResearchPost s r).1.web_research_results =
        s.web_research_results ++ [⟨some t, r⟩] ∧
      (webResearchPost s r).1.web_research_results ≠ [] ∧
      (supervisorExec o (webResearchPost s r).1).action = Action.analyze := by
  refine ⟨by simp [webResearchStep, hcur, hex], by simp [webResearchPost, hcur], ?_, ?_⟩
  · simp [webResearchPost]
  · simp [supervisorExec, webResearchPost, hrep, hana]

/-- C10 witness: the skipped `data_analysis` task completes, lands in the
research log and the next decision is `analyze`. -/
theorem skipped_research_drives_analyze_witness :
    (webResearchPost noAnalysisState
        (.skipped "Task type data_analysis is not a web research task")).1.web_research_results ≠ [] ∧
      (supervisorExec approveOracles
        (webResearchPost noAnalysisState
          (.skipped "Task type data_analysis is not a web research task")).1).action =
        Action.analyze := by
  have h := skipped_research_drives_analyze searchNone approveOracles noAnalysisState
    dataTask (.skipped "Task type data_analysis is not a web research task") rfl rfl rfl rfl
  exact ⟨h.2.2.1, h.2.2.2⟩

/-! ## C2 -/

/-- C2 counterexample: on a concrete state whose report the validator
rejects, the decision does carry `needs_revision` with the feedback and the
queue advances — but the post-state equals the input state with only the two
queue fields changed: no field of the shared store receives the feedback
(`validation_results`, initialised by `main.py` and the natural slot, stays
`none`), refuting "the feedback is stored in the RunState". -/
theorem rejection_feedback_not_stored_cex :
    (supervisorExec rejectOracles reportState).action = Action.needs_revision ∧
      (supervisorExec rejectOracles reportState).feedback = some (Yaml.str "bad") ∧
      (supervisorPost reportState (supervisorExec rejectOracles reportState)).1 =
        { reportState with current_task := some dataTask, remaining_tasks := [] } ∧
      (supervisorPost reportState (supervisorExec rejectOracles reportState)).1.validation_results =
        none :=
  ⟨rfl, rfl, rfl, rfl⟩

/-- C2 amended: when the validator rejects, the supervisor returns
`needs_revision` with the feedback attached to the (ephemeral) decision, and
`post` pops the head of a non-empty `remaining_tasks` into `current_task`;
the feedback is not persisted: the post-state is the input state with only
the two queue fields changed (the whole store when the queue is empty). -/
theorem rejection_routing_amended (o : SupervisorOracles) (s : RunState)
    (hrep : optTruthy s.final_report = true) (hrej : o.validation.approved = false) :
    (supervisorExec o s).action = Action.needs_revision ∧
      (supervisorExec o s).feedback = some o.validation.feedback ∧
      (∀ t rest, s.remaining_tasks = t :: rest →
        (supervisorPost s (supervisorExec o s)).1 =
          { s with current_task := some t, remaining_tasks := rest }) ∧
      (s.remaining_tasks = [] → (supervisorPost s (supervisorExec o s)).1 = s) := by
  have hdec : supervisorExec o s =
      { action := .needs_revision, feedback := some o.validation.feedback } := by
    simp [supervisorExec, hrep, hrej]
  rw [hdec]
  refine ⟨rfl, rfl, ?_, ?_⟩
  · intro t rest hrem
    simp [supervisorPost, hrem]
  · intro hrem
    simp [supervisorPost, hrem]

/-- C2 witness: the amended behaviour at the concrete rejected state. -/
theorem rejection_routing_amended_witness :
    (supervisorExec rejectOracles reportState).action = Action.needs_revision ∧
      (supervisorPost reportState (supervisorExec rejectOracles reportState)).1 =
        { reportState with current_task := some dataTask, remaining_tasks := [] } := by
  have h := rejection_routing_amended rejectOracles reportState rfl rfl
  exact ⟨h.1, h.2.2.1 dataTask [] rfl⟩

/-! ## C3 -/

/-- C3 counterexample: `ReporterNode.exec` has no exception handling — on the
response "hello", which contains no fenced YAML block, it raises
(`IndexError` from `response.split("```yaml")[1]`) instead of returning an
empty report skeleton. -/
theorem reporter_raises_cex :
    reporterExec failParse "hello" = Except.error "IndexError: list index out of range" :=
  rfl

/-- C3 amended: the reporter propagates structural parse failures rather than
degrading: it errors exactly when the response has no fenced YAML block or
the block fails to parse, and otherwise returns the parsed value as-is (never
a substituted skeleton). -/
theorem reporter_propagates_parse_failure (parse : String → Option Yaml)
    (response : String) :
    (extractFencedYaml response = none →
        reporterExec parse response = .error "IndexError: list index out of range") ∧
      (∀ ys, extractFencedYaml response = some ys → parse ys = none →
        reporterExec parse response = .error "yaml.YAMLError") ∧
      (∀ ys y, extractFencedYaml response = some ys → parse ys = some y →
        reporterExec parse response = .ok y) := by
  refine ⟨?_, ?_, ?_⟩
  · intro h; simp [reporterExec, h]
  · intro ys h hp; simp [reporterExec, h, hp]
  · intro ys y h hp; simp [reporterExec, h, hp]

/-- C3 witness: a response whose fenced block fails to parse yields the
propagated parser error. -/
theorem reporter_propagates_parse_failure_witness :
    reporterExec failParse "x ```yaml : ``` y" = Except.error "yaml.YAMLError" := by
  have h := reporter_propagates_parse_failure failParse "x ```yaml : ``` y"
  exact h.2.1 ":" rfl rfl

/-! ## Helper lemmas for the code-execution contract -/

/-- The temp directory reported by `execute_visualization_code`: lost
(`None`) when the code raises, the created directory otherwise. -/
theorem evc_temp_dir_eq (b : CodeBehavior) (d : Nat) :
    (execute_visualization_code b d).temp_dir =
      (match b.raises with | some _ => none | none => some d) := by
  unfold execute_visualization_code
  cases b.raises with
  | some e => rfl
  | none => dsimp only []; split <;> rfl

/-- When the code terminates, the reported artifact paths are exactly the
files with artifact extensions (also in the no-artifact failure, where both
sides are empty). -/
theorem evc_file_paths (b : CodeBehavior) (d : Nat) (hr : b.raises = none) :
    (execute_visualization_code b d).file_paths = b.files.filter isArtifactFile := by
  unfold execute_visualization_code
  rw [hr]
  dsimp only []
  split <;> simp_all

/-- `execute_and_upload` succeeds exactly when the code terminated, produced
at least one artifact, and at least one artifact uploaded. -/
theorem eau_success_iff (b : CodeBehavior) (u : String → Option String) (t : Bool)
    (d : Nat) :
    (execute_and_upload b u t d).1.success = true ↔
      (b.raises = none ∧ b.files.filter isArtifactFile ≠ [] ∧
        (b.files.filter isArtifactFile).filterMap u ≠ []) := by
  cases hr : b.raises with
  | some e => simp [execute_and_upload, execute_visualization_code, hr]
  | none =>
    cases hf : b.files.filter isArtifactFile with
    | nil => simp [execute_and_upload, execute_visualization_code, hr, hf]
    | cons f fs =>
      cases hu : (f :: fs).filterMap u with
      | nil => simp [execute_and_upload, execute_visualization_code, hr, hf, hu]
      | cons url rest => simp [execute_and_upload, execute_visualization_code, hr, hf, hu]

/-- A successful `execute_and_upload` carries a non-empty url list. -/
theorem eau_urls_of_success (b : CodeBehavior) (u : String → Option String) (t : Bool)
    (d : Nat) (h : (execute_and_upload b u t d).1.success = true) :
    (execute_and_upload b u t d).1.urls ≠ [] := by
  obtain ⟨hr, hf, hu⟩ := (eau_success_iff b u t d).mp h
  cases hfe : b.files.filter isArtifactFile with
  | nil => exact absurd hfe hf
  | cons f fs =>
    have hue : (f :: fs).filterMap u ≠ [] := by rw [← hfe]; exact hu
    cases hue2 : (f :: fs).filterMap u with
    | nil => exact absurd hue2 hue
    | cons url rest =>
      simp [execute_and_upload, execute_visualization_code, hr, hfe, hue2]

/-- The cleanup decision of the `finally` clause is computed before any
branching: it removes the directory precisely when a directory was reported
and `TESTING` is unset, on every outcome. -/
theorem eau_cleanup (b : CodeBehavior) (u : String → Option String) (t : Bool) (d : Nat) :
    (execute_and_upload b u t d).2 =
      ((execute_visualization_code b d).temp_dir.isSome && !t) := by
  unfold execute_and_upload
  dsimp only []
  split <;> [rfl; skip]
  split <;> rfl

/-! ## C4 -/

/-- C4 counterexample: two artifacts are produced, the upload of `b.png`
fails, yet `execute_and_upload` returns `success` with the partial url list
`["urlA"]` — a failed upload of one artifact is only printed and skipped, so
delivery is not all-or-nothing. -/
theorem partial_upload_success_cex :
    (execute_visualization_code twoFilesBehavior 0).file_paths = ["a.png", "b.png"] ∧
      partialUpload "b.png" = none ∧
      (execute_and_upload twoFilesBehavior partialUpload false 0).1.success = true ∧
      (execute_and_upload twoFilesBehavior partialUpload false 0).1.urls = ["urlA"] :=
  ⟨rfl, rfl, rfl, rfl⟩

/-- C4 amended: `execute_and_upload` fails when the generated code raises,
when no artifact files are produced, or when every produced artifact fails
to upload; it never returns `success` with empty `urls` (and neither does
the code-execution worker built on it) — but a partial artifact set with at
least one successful upload is returned as `success`. -/
theorem execute_and_upload_failure_modes (b : CodeBehavior)
    (u : String → Option String) (t : Bool) (d : Nat) :
    (b.raises.isSome = true →
        (execute_and_upload b u t d).1.success = false) ∧
      (b.files.filter isArtifactFile = [] →
        (execute_and_upload b u t d).1.success = false) ∧
      ((execute_visualization_code b d).file_paths.filterMap u = [] →
        (execute_and_upload b u t d).1.success = false) ∧
      ((execute_and_upload b u t d).1.success = true →
        (execute_and_upload b u t d).1.urls ≠ []) ∧
      (∀ c us out,
        codeExecutorHandle c (execute_and_upload b u t d).1 =
            CodeExecResult.success c us out →
          us ≠ []) := by
  refine ⟨?_, ?_, ?_, eau_urls_of_success b u t d, ?_⟩
  · intro h
    by_contra hs
    rw [Bool.not_eq_false] at hs
    obtain ⟨hr, -, -⟩ := (eau_success_iff b u t d).mp hs
    rw [hr] at h
    cases h
  · intro h
    by_contra hs
    rw [Bool.not_eq_false] at hs
    obtain ⟨-, hf, -⟩ := (eau_success_iff b u t d).mp hs
    exact hf h
  · intro h
    by_contra hs
    rw [Bool.not_eq_false] at hs
    obtain ⟨hr, -, hu⟩ := (eau_success_iff b u t d).mp hs
    rw [evc_file_paths b d hr] at h
    exact hu h
  · intro c us out h
    cases hsucc : (execute_and_upload b u t d).1.success with
    | false => simp [codeExecutorHandle, hsucc] at h
    | true =>
      unfold codeExecutorHandle at h
      rw [hsucc, if_pos rfl] at h
      cases h
      exact eau_urls_of_success b u t d hsucc

/-- C4 witness: the partial-upload success has non-empty urls, and the
raising run fails. -/
theorem execute_and_upload_failure_modes_witness :
    (execute_and_upload twoFilesBehavior partialUpload false 0).1.urls ≠ [] ∧
      (execute_and_upload raisingBehavior partialUpload false 0).1.success = false := by
  refine ⟨?_, ?_⟩
  · exact (execute_and_upload_failure_modes twoFilesBehavior partialUpload false 0).2.2.2.1 rfl
  · exact (execute_and_upload_failure_modes raisingBehavior partialUpload false 0).1 rfl

/-! ## C9 -/

/-- C9 counterexample: when the sandboxed code raises, the `except` clause of
`execute_visualization_code` reports `temp_dir: None`, so the `finally`
clause of `execute_and_upload` never removes the directory that had already
been created — cleanup fails exactly in the code-raises outcome (here with
`TESTING` unset). -/
theorem temp_dir_leak_cex :
    (execute_visualization_code raisingBehavior 0).temp_dir = none ∧
      (execute_and_upload raisingBehavior partialUpload false 0).1.success = false ∧
      (execute_and_upload raisingBehavior partialUpload false 0).2 = false :=
  ⟨rfl, rfl, rfl⟩

/-- C9 amended: with `TESTING` unset, the temp directory is removed after
publishing on every outcome in which the generated code itself terminated
(success, no artifacts produced, upload failure); when the generated code
raises, the directory reference is lost (`temp_dir: None`) and no cleanup
happens. -/
theorem temp_dir_cleanup_amended (b : CodeBehavior) (u : String → Option String)
    (d : Nat) :
    (b.raises = none → (execute_and_upload b u false d).2 = true) ∧
      (b.raises.isSome = true → (execute_and_upload b u false d).2 = false) ∧
      (∀ t, (execute_and_upload b u t d).2 =
        ((execute_visualization_code b d).temp_dir.isSome && !t)) := by
  refine ⟨?_, ?_, fun t => eau_cleanup b u t d⟩
  · intro hr
    rw [eau_cleanup, evc_temp_dir_eq, hr]
    rfl
  · intro hr
    rw [eau_cleanup, evc_temp_dir_eq]
    cases hcase : b.raises with
    | some e => rfl
    | none => rw [hcase] at hr; cases hr
  
/-- C9 witness: cleanup does happen on the successful partial-upload run and
fails on the raising run. -/
theorem temp_dir_cleanup_amended_witness :
    (execute_and_upload twoFilesBehavior partialUpload false 0).2 = true ∧
      (execute_and_upload raisingBehavior partialUpload false 0).2 = false := by
  refine ⟨?_, ?_⟩
  · exact (temp_dir_cleanup_amended twoFilesBehavior partialUpload 0).1 rfl
  · exact (temp_dir_cleanup_amended raisingBehavior partialUpload 0).2.1 rfl

/-! ## C5 -/

/-- The task loop accepts a list exactly when every member passes the
per-task checks. -/
theorem findTaskError_eq_none {l : List Yaml} :
    findTaskError l = none ↔ ∀ t ∈ l, checkTask t = none := by
  induction l with
  | nil => simp [findTaskError]
  | cons t rest ih =>
    cases h : checkTask t with
    | some e => simp [findTaskError, h]
    | none => simp [findTaskError, h, ih]

/-- C5 counterexample: the planner validation accepts an empty `tasks`
sequence and a `web_research` task whose `parameters` lacks the
type-specific `search_terms` list — neither triggers a decomposition error;
the empty sequence instead crashes later in `post` (`IndexError` at
`exec_res["tasks"][0]`, modelled as `none`). -/
theorem planner_accepts_degenerate_cex :
    plannerValidate emptyTasksYaml = .ok emptyTasksYaml ∧
      (plannerValidate noParamListYaml).isOk = true ∧
      plannerPost (initialState "q") [] = none :=
  ⟨rfl, rfl, rfl⟩

/-- C5 amended: the planner fails when the response has no fenced block or
the block cannot be parsed, and its schema validation rejects exactly a
missing/non-list `tasks` entry, a non-dict task, a task missing one of
`type`/`description`/`parameters`, or an invalid `type` — it does not check
the type-specific parameters list (missing or empty passes) nor that the
tasks sequence is non-empty (which then aborts in `post` with an index
error, not a decomposition error). -/
theorem planner_validation_amended :
    (∀ parse response, extractFencedYaml response = none →
        (plannerExec parse response).isOk = false) ∧
      (∀ (parse : String → Option Yaml) response ys,
        extractFencedYaml response = some ys → parse ys = none →
        (plannerExec parse response).isOk = false) ∧
      (∀ y : Yaml, (plannerValidate y).isOk = true ↔
        ∃ kvs l, y = Yaml.dict kvs ∧ kvs.lookup "tasks" = some (Yaml.list l) ∧
          ∀ t ∈ l, checkTask t = none) ∧
      (∀ s : RunState, plannerPost s [] = none) := by
  refine ⟨?_, ?_, ?_, fun s => rfl⟩
  · intro parse response h
    simp [plannerExec, h, Except.isOk, Except.toBool]
  · intro parse response ys h hp
    simp [plannerExec, h, hp, Except.isOk, Except.toBool]
  · intro y
    constructor
    · intro h
      cases y with
      | dict kvs =>
        cases hl : kvs.lookup "tasks" with
        | none => simp [plannerValidate, hl, Except.isOk, Except.toBool] at h
        | some v =>
          cases v with
          | list l =>
            cases he : findTaskError l with
            | some e => simp [plannerValidate, hl, he, Except.isOk, Except.toBool] at h
            | none =>
              exact ⟨kvs, l, rfl, hl, findTaskError_eq_none.mp he⟩
          | null => simp [plannerValidate, hl, Except.isOk, Except.toBool] at h
          | bool b => simp [plannerValidate, hl, Except.isOk, Except.toBool] at h
          | num n => simp [plannerValidate, hl, Except.isOk, Except.toBool] at h
          | str s => simp [plannerValidate, hl, Except.isOk, Except.toBool] at h
          | dict kvs2 => simp [plannerValidate, hl, Except.isOk, Except.toBool] at h
      | null => simp [plannerValidate, Except.isOk, Except.toBool] at h
      | bool b => simp [plannerValidate, Except.isOk, Except.toBool] at h
      | num n => simp [plannerValidate, Except.isOk, Except.toBool] at h
      | str s => simp [plannerValidate, Except.isOk, Except.toBool] at h
      | list xs => simp [plannerValidate, Except.isOk, Except.toBool] at h
    · rintro ⟨kvs, l, rfl, hl, hall⟩
      simp [plannerValidate, hl, findTaskError_eq_none.mpr hall, Except.isOk, Except.toBool]

/-- C5 witness: the degenerate parses accepted, and a fence-less response
rejected, through the amended characterization. -/
theorem planner_validation_amended_witness :
    (plannerValidate emptyTasksYaml).isOk = true ∧
      (plannerExec failParse "no fence here").isOk = false := by
  refine ⟨?_, ?_⟩
  · exact (planner_validation_amended.2.2.1 emptyTasksYaml).mpr
      ⟨[("tasks", Yaml.list [])], [], rfl, rfl, by simp⟩
  · exact planner_validation_amended.1 failParse "no fence here" rfl

/-! ## C8 -/

/-- Every transition of the loop preserves "an empty `current_task` forces an
empty `remaining_tasks`": the planner installs a head task, the workers do
not touch the queue, and the supervisor only ever installs a task or pops a
non-empty queue into `current_task`. -/
theorem step_preserves_queue {s s' : RunState}
    (hs : s.current_task = none → s.remaining_tasks = [])
    (h : Step s s') :
    s'.current_task = none → s'.remaining_tasks = [] := by
  cases h with
  | planner ts s s' out h =>
    cases ts with
    | nil => simp [plannerPost] at h
    | cons t rest =>
      simp [plannerPost] at h
      intro hc
      rw [← h.1] at hc
      simp at hc
  | webResearch search s s' out h =>
    cases hcur : s.current_task with
    | none => simp [webResearchStep, hcur] at h
    | some t =>
      cases hex : webResearchExec search t with
      | error e => simp [webResearchStep, hcur, hex] at h
      | ok r =>
        simp [webResearchStep, hcur, hex, webResearchPost] at h
        intro hc
        rw [← h.1] at hc
        simp at hc
  | dataAnalysis a s => exact hs
  | codeExecutor r s => exact hs
  | reporter r s => exact hs
  | supervisor o s =>
    by_cases h1 : (supervisorExec o s).action = Action.execute_code ∧
        (supervisorExec o s).task.isSome = true
    · intro hc
      simp [supervisorPost, h1] at hc
      rw [hc] at h1
      simp at h1
    · by_cases h2 : (supervisorExec o s).action = Action.needs_revision
      · cases hrem : s.remaining_tasks with
        | nil =>
          intro _
          simp [supervisorPost, h1, h2, hrem]
        | cons t rest =>
          intro hc
          simp [supervisorPost, h1, h2, hrem] at hc
      · intro hc
        simp [supervisorPost, h1, h2] at hc ⊢
        exact hs hc

/-- C8: in every reachable state of the orchestration loop exactly one holds
of "`current_task` empty and `remaining_tasks` empty" or "`current_task`
non-empty" (`Xor'`): an empty current task is only ever seen with an
exhausted queue. -/
theorem queue_invariant (s : RunState) (h : Reachable s) :
    Xor' (s.current_task = none ∧ s.remaining_tasks = [])
      (s.current_task ≠ none) := by
  have core : s.current_task = none → s.remaining_tasks = [] := by
    induction h with
    | init q => intro hc; rfl
    | step hr hst ih => exact step_preserves_queue ih hst
  cases hcur : s.current_task with
  | none =>
    left
    exact ⟨⟨rfl, core hcur⟩, fun hne => hne rfl⟩
  | some t =>
    right
    exact ⟨by simp, fun hA => by cases hA.1⟩

/-- C8 witness: the invariant at the initial shared store. -/
theorem queue_invariant_witness :
    Xor' ((initialState "q").current_task = none ∧ (initialState "q").remaining_tasks = [])
      ((initialState "q").current_task ≠ none) :=
  queue_invariant (initialState "q") (Reachable.init "q")

end Pocketflow
